import Mathlib

/-
Shallow embedding of the shoti-srv HTTP service (Go).

The service keeps rows (id, url) in one relational table and exposes:
  POST /new   -> addURL        (insert one row, id generated by the server)
  GET  /list  -> getURLs       (list every row)
  GET  /clr   -> clearURLs     (delete every row, GET only)
  GET  /get   -> getVideoData  (pick a random row, fetch video info, normalize)

The database table is modelled as a `List URL` (a stable snapshot ordering,
matching the single-threaded view the claims assume).  The random draw of
`rand.Intn(count)` is passed in as a `draw : Nat` parameter; its contract
`draw < count` appears as a hypothesis where needed.  The outbound HTTP call
of getVideoInfo is split into the part the code performs after transport and
JSON decoding, with the transport/decode outcome passed as a parameter.

Response bodies are kept structured where the external JSON encoder would be
applied (the encoder is library code, not code of this repository), except
that the Go rule "a nil slice encodes as the JSON value null" is captured by
`marshalSlice`, because one claim turns on exactly that rule.  Plain-text
bodies written through http.Error or fmt.Fprintln carry the trailing newline
those functions append.
-/

/-- A stored row of the urls table; also the decode target of POST /new. -/
structure URL where
  id : String
  url : String
deriving DecidableEq, Repr

/-- Result of decoder.Decode on the request body: io.EOF on an empty body,
any other decode error, or success carrying the url field (absent or empty
fields decode to the empty string, the Go zero value). -/
inductive BodyDecode where
  | eof
  | malformed (e : String)
  | ok (url : String)
deriving DecidableEq, Repr

/-- An inbound HTTP request as the /new handler observes it. -/
structure Request where
  method : String
  contentType : String
  body : BodyDecode
deriving DecidableEq, Repr

/-- Body written by the /new handler: a plain-text error from http.Error, or
the JSON encoding of the stored record. -/
inductive AddBody where
  | text (s : String)
  | record (u : URL)
deriving DecidableEq, Repr

/-- Outcome of one call to the /new handler: status and body written, the
table after the call, and whether the handler read the request body. -/
structure AddResult where
  status : Nat
  body : AddBody
  store : List URL
  bodyRead : Bool
deriving DecidableEq, Repr

/-- addURL from main.go (identical in every variant).  freshId stands for the
value of uuid.New().String(); the database INSERT is the append to the
snapshot list.  http.Error appends a newline to its message. -/
def addURL (freshId : String) (req : Request) (store : List URL) : AddResult :=
  if req.contentType ≠ "application/json" then
    { status := 400, body := .text "Content-Type must be application/json\n",
      store := store, bodyRead := false }
  else
    match req.body with
    | .eof =>
      { status := 400, body := .text "Empty request body\n",
        store := store, bodyRead := true }
    | .malformed _ =>
      { status := 400, body := .text "Invalid request payload\n",
        store := store, bodyRead := true }
    | .ok u =>
      let row : URL := { id := freshId, url := u }
      { status := 201, body := .record row,
        store := store ++ [row], bodyRead := true }

/-- Top-level JSON value written by getURLs: encoding/json renders a nil
[]URL slice as null and a non-nil slice as an array. -/
inductive JsonValue where
  | nullV
  | arrV (rows : List URL)
deriving DecidableEq, Repr

/-- Outcome of one call to the list handler. -/
structure ListResult where
  status : Nat
  body : JsonValue
deriving DecidableEq, Repr

/-- One step of the rows.Next loop of getURLs: Go append on a nil slice
allocates, so the accumulator is non-nil from the first row on. -/
def appendRow (urls : Option (List URL)) (row : URL) : Option (List URL) :=
  some (urls.getD [] ++ [row])

/-- The rows.Next loop of getURLs, folding the scanned rows into the
`var urls []URL` accumulator (none models the nil slice). -/
def scanRows (urls : Option (List URL)) : List URL → Option (List URL)
  | [] => urls
  | row :: rest => scanRows (appendRow urls row) rest

/-- encoding/json on a []URL value: a nil slice encodes as null, any other
slice as a JSON array of its records. -/
def marshalSlice : Option (List URL) → JsonValue
  | none => .nullV
  | some rows => .arrV rows

/-- getURLs from main.go: SELECT every row, scan them into a slice that
starts nil, and encode that slice; status 200 is written implicitly. -/
def getURLs (store : List URL) : ListResult :=
  { status := 200, body := marshalSlice (scanRows none store) }

/-- Outcome of one call to the /clr handler: status, plain-text body, and
the table after the call. -/
structure ClrResult where
  status : Nat
  body : String
  store : List URL
deriving DecidableEq, Repr

/-- clearURLs from main.go: rejects every method other than GET with 405 and
leaves the table alone; on GET deletes every row and confirms in plain text
(fmt.Fprintln appends a newline). -/
def clearURLs (method : String) (store : List URL) : ClrResult :=
  if method ≠ "GET" then
    { status := 405, body := "Invalid method. Only GET is allowed\n",
      store := store }
  else
    { status := 200, body := "All URLs have been removed from the database.\n",
      store := [] }

/-- getRandomURL from the data-fetching variant: count the rows, fail when
zero, otherwise draw randomIndex = Intn(count) + 1 and run
SELECT url FROM urls LIMIT 1 OFFSET randomIndex - 1 against the snapshot.
An out-of-range offset surfaces the sql.ErrNoRows scan failure. -/
def getRandomURL (store : List URL) (draw : Nat) : Except String String :=
  let count := store.length
  if count = 0 then
    .error "no URLs found in the database"
  else
    let randomIndex := draw + 1
    match store.get? (randomIndex - 1) with
    | some row => .ok row.url
    | none => .error "error retrieving random URL: sql: no rows in result set"

/-- The music_info sub-record of the remote API response. -/
structure MusicInfo where
  id : String
  title : String
  play : String
  cover : String
deriving DecidableEq, Repr

/-- The author sub-record of the remote API response. -/
structure Author where
  id : String
  uniqueId : String
  nickname : String
  avatar : String
deriving DecidableEq, Repr

/-- The data sub-record of the remote API response (stricter variant). -/
structure VideoData where
  id : String
  region : String
  title : String
  cover : String
  aiDynamicCover : String
  originCover : String
  duration : Int
  play : String
  wmplay : String
  size : Int
  wmSize : Int
  music : MusicInfo
  playCount : Int
  diggCount : Int
  commentCount : Int
  shareCount : Int
  downloadCount : Int
  collectCount : Int
  createTime : Int
  author : Author
deriving DecidableEq, Repr

/-- The decoded remote API response (stricter variant): status code, message,
and the payload. -/
structure VideoInfo where
  code : Int
  msg : String
  data : VideoData
deriving DecidableEq, Repr

/-- The user sub-object of the normalized public response. -/
structure UserOut where
  username : String
  nickname : String
  userID : String
deriving DecidableEq, Repr

/-- The data sub-object of the normalized public response. -/
structure VideoOut where
  region : String
  url : String
  cover : String
  title : String
  duration : String
  user : UserOut
deriving DecidableEq, Repr

/-- VideoDataResponse, the normalized public response shape of GET /get. -/
structure VideoDataResponse where
  code : Nat
  msg : String
  data : VideoOut
deriving DecidableEq, Repr

/-- What the outbound HTTP GET plus JSON decode produced, before the status
code check: transport failure, decode failure, or a decoded VideoInfo. -/
inductive FetchOutcome where
  | transportError (e : String)
  | decodeError (e : String)
  | decoded (info : VideoInfo)
deriving DecidableEq, Repr

/-- getVideoInfo from the stricter variant, after the transport and decode
steps summarised by the outcome: wraps transport and decode failures, and
rejects a decoded response whose code field is non-zero, surfacing the
remote msg field after the prefix "API error: ". -/
def getVideoInfo (outcome : FetchOutcome) : Except String VideoInfo :=
  match outcome with
  | .transportError e => .error ("error fetching video info: " ++ e)
  | .decodeError e => .error ("error decoding video info: " ++ e)
  | .decoded info =>
    if info.code ≠ 0 then .error ("API error: " ++ info.msg)
    else .ok info

/-- The normalization step of getVideoData (stricter variant): builds the
media URL from a fixed base, the video id and ".mp4", renders the duration
with Sprintf %ds (decimal integer followed by the letter s), and renames the
author fields into the user sub-object. -/
def normalizeVideo (info : VideoInfo) : VideoDataResponse :=
  { code := 200, msg := "success",
    data :=
      { region := info.data.region,
        url := "https://www.tikwm.com/video/media/hdplay/" ++ info.data.id ++ ".mp4",
        cover := info.data.cover,
        title := info.data.title,
        duration := toString info.data.duration ++ "s",
        user :=
          { username := info.data.author.uniqueId,
            nickname := info.data.author.nickname,
            userID := info.data.author.id } } }

/-- Body written by the /get handler: a plain-text error from http.Error, or
the JSON encoding of the normalized response. -/
inductive GetBody where
  | text (s : String)
  | json (v : VideoDataResponse)
deriving DecidableEq, Repr

/-- Outcome of one call to the /get handler: status, body, and whether the
outbound video-info fetch was invoked. -/
structure GetResult where
  status : Nat
  body : GetBody
  fetchCalled : Bool
deriving DecidableEq, Repr

/-- getVideoData from the stricter variant: pick a random URL, fetch and
decode the video info through the given client, and normalize.  Each failure
becomes a 500 with a descriptive plain-text message (http.Error appends a
newline); fetchCalled records whether the client was invoked. -/
def getVideoData (store : List URL) (draw : Nat)
    (fetch : String → Except String VideoInfo) : GetResult :=
  match getRandomURL store draw with
  | .error e =>
    { status := 500, body := .text ("Error fetching random URL: " ++ e ++ "\n"),
      fetchCalled := false }
  | .ok randomURL =>
    match fetch randomURL with
    | .error e =>
      { status := 500, body := .text ("Error fetching video: " ++ e ++ "\n"),
        fetchCalled := true }
    | .ok info =>
      { status := 200, body := .json (normalizeVideo info), fetchCalled := true }

/-- Builds a VideoInfo whose fields not named by a claim are zero values. -/
def mkVideoInfo (code : Int) (msg id region title cover : String)
    (duration : Int) (uid nick aid : String) : VideoInfo :=
  { code := code, msg := msg,
    data :=
      { id := id, region := region, title := title, cover := cover,
        aiDynamicCover := "", originCover := "", duration := duration,
        play := "", wmplay := "", size := 0, wmSize := 0,
        music := { id := "", title := "", play := "", cover := "" },
        playCount := 0, diggCount := 0, commentCount := 0, shareCount := 0,
        downloadCount := 0, collectCount := 0, createTime := 0,
        author := { id := aid, uniqueId := uid, nickname := nick, avatar := "" } } }

/-- The stubbed VideoInfo of the specification test case. -/
def sampleInfo : VideoInfo :=
  mkVideoInfo 0 "" "abc" "PH" "t" "c" 30 "u1" "N" "uid1"

/-- A decoded response carrying a non-zero remote status code. -/
def errInfo : VideoInfo :=
  mkVideoInfo 1 "rate limit exceeded" "abc" "PH" "t" "c" 30 "u1" "N" "uid1"

/-- Builds a Request value; abbreviation used by concrete instances. -/
def mkReq (m ct : String) (b : BodyDecode) : Request :=
  { method := m, contentType := ct, body := b }

theorem getRandomURL_pos (store : List URL) (draw : Nat) (h : draw < store.length) :
    getRandomURL store draw = Except.ok ((store.get ⟨draw, h⟩).url) := by
  unfold getRandomURL
  have hc : ¬ store.length = 0 := by omega
  simp only [hc, if_false, Nat.add_sub_cancel]
  rw [List.get?_eq_get h]

theorem scanRows_some (acc : List URL) (rows : List URL) :
    scanRows (some acc) rows = some (acc ++ rows) := by
  induction rows generalizing acc with
  | nil => simp [scanRows]
  | cons r rest ih => simp [scanRows, appendRow, ih]

theorem scanRows_from_nil (store : List URL) (h : store ≠ []) :
    scanRows none store = some store := by
  cases store with
  | nil => exact absurd rfl h
  | cons r rest => simp [scanRows, appendRow, scanRows_some]

/-- C1: the normalization step of GET /get builds data.url from the fixed
base, the video id and ".mp4", renders the duration as its decimal digits
followed by the letter s, copies region, cover and title, and renames the
author fields unique_id, nickname, id to username, nickname, userID; the
success path of the handler returns exactly this normalized body; on the
stubbed record with id abc, duration 30, unique_id u1 it yields the url
https://www.tikwm.com/video/media/hdplay/abc.mp4, duration 30s and
username u1. -/
theorem c1_normalization (info : VideoInfo) :
    (normalizeVideo info).data.url
        = "https://www.tikwm.com/video/media/hdplay/" ++ info.data.id ++ ".mp4" ∧
    (normalizeVideo info).data.duration = toString info.data.duration ++ "s" ∧
    (normalizeVideo info).data.region = info.data.region ∧
    (normalizeVideo info).data.cover = info.data.cover ∧
    (normalizeVideo info).data.title = info.data.title ∧
    (normalizeVideo info).data.user.username = info.data.author.uniqueId ∧
    (normalizeVideo info).data.user.nickname = info.data.author.nickname ∧
    (normalizeVideo info).data.user.userID = info.data.author.id ∧
    getVideoData [{ id := "r", url := "u" }] 0 (fun _ => Except.ok info)
      = { status := 200, body := GetBody.json (normalizeVideo info),
          fetchCalled := true } ∧
    (normalizeVideo sampleInfo).data.url
      = "https://www.tikwm.com/video/media/hdplay/abc.mp4" ∧
    (normalizeVideo sampleInfo).data.duration = "30s" ∧
    (normalizeVideo sampleInfo).data.user.username = "u1" :=
  ⟨rfl, rfl, rfl, rfl, rfl, rfl, rfl, rfl, rfl, by decide, by decide, by decide⟩

/-- C2: on an empty store getRandomURL fails with the no-URLs error, and
GET /get returns 500 with a message containing that indication, without
ever invoking the video-info client (for every client and every draw). -/
theorem c2_empty_store (draw : Nat) (fetch : String → Except String VideoInfo) :
    getRandomURL [] draw = Except.error "no URLs found in the database" ∧
    getVideoData [] draw fetch
      = { status := 500,
          body := GetBody.text
            ("Error fetching random URL: " ++ "no URLs found in the database" ++ "\n"),
          fetchCalled := false } :=
  ⟨rfl, rfl⟩

/-- C3 counterexample: on a store with zero rows getURLs writes the JSON
value null (the nil Go slice), which is not the empty JSON array the claim
states. -/
theorem c3_counterexample :
    (getURLs []).body = JsonValue.nullV ∧ (getURLs []).body ≠ JsonValue.arrV [] := by
  refine ⟨rfl, ?_⟩
  decide

/-- C3 (amended): getURLs responds 200 with the JSON array of the stored
records whenever the store is non-empty; on a store with zero rows it
responds 200 with the JSON value null (the nil slice encodes as null), not
with an empty array. -/
theorem c3_list_all (store : List URL) :
    (store ≠ [] → getURLs store = { status := 200, body := JsonValue.arrV store }) ∧
    getURLs [] = { status := 200, body := JsonValue.nullV } := by
  refine ⟨fun h => ?_, rfl⟩
  unfold getURLs
  rw [scanRows_from_nil store h]
  rfl

/-- C3 witness: the amended theorem evaluated on a one-row store. -/
theorem c3_list_all_witness :
    getURLs [{ id := "a", url := "u" }]
      = { status := 200, body := JsonValue.arrV [{ id := "a", url := "u" }] } :=
  (c3_list_all [{ id := "a", url := "u" }]).1 (by decide)

/-- C4: for a store with at least one row and any draw returned by
Intn(count), the offset randomIndex - 1 = draw + 1 - 1 lies in [0, count),
and getRandomURL returns the url of the row at that offset of the
snapshot ordering. -/
theorem c4_offset_in_range (store : List URL) (draw : Nat)
    (h : draw < store.length) :
    draw + 1 - 1 < store.length ∧
    getRandomURL store draw = Except.ok ((store.get ⟨draw, h⟩).url) :=
  ⟨by omega, getRandomURL_pos store draw h⟩

/-- C4 witness: the offset theorem evaluated on a one-row store and draw 0. -/
theorem c4_offset_in_range_witness :
    0 + 1 - 1 < [({ id := "a", url := "u" } : URL)].length ∧
    getRandomURL [{ id := "a", url := "u" }] 0
      = Except.ok (([({ id := "a", url := "u" } : URL)].get ⟨0, by decide⟩).url) :=
  c4_offset_in_range [{ id := "a", url := "u" }] 0 (by decide)

/-- C5 counterexample: one POST /new request whose body decodes to the url
field holding the empty string (for example the body with url set to "") is
inserted unchanged, so the store reaches a row whose url column holds the
empty string, refuting the non-emptiness invariant. -/
theorem c5_counterexample :
    (addURL "id1" (mkReq "POST" "application/json" (BodyDecode.ok "")) []).store
      = [{ id := "id1", url := "" }] ∧
    ({ id := "id1", url := "" } : URL).url = "" := by
  refine ⟨by decide, rfl⟩

/-- C5 (amended): addURL performs no validation of the decoded url value at
all: the stored row carries exactly the decoded string, including the empty
string, appended to the previous rows. -/
theorem c5_no_validation (freshId m u : String) (store : List URL) :
    (addURL freshId (mkReq m "application/json" (BodyDecode.ok u)) store).store
      = store ++ [{ id := freshId, url := u }] := by
  simp [addURL, mkReq]

/-- C6: any request whose Content-Type is not exactly application/json is
rejected with 400 and the fixed message, the body is never read (for every
body value, and bodyRead stays false), and the store is unchanged. -/
theorem c6_content_type_guard (freshId : String) (req : Request)
    (store : List URL) (h : req.contentType ≠ "application/json") :
    addURL freshId req store
      = { status := 400,
          body := AddBody.text "Content-Type must be application/json\n",
          store := store, bodyRead := false } := by
  unfold addURL
  rw [if_pos h]

/-- C6 witness: the guard theorem evaluated on a text/plain request. -/
theorem c6_content_type_guard_witness :
    addURL "id1" (mkReq "POST" "text/plain" (BodyDecode.ok "x")) []
      = { status := 400,
          body := AddBody.text "Content-Type must be application/json\n",
          store := [], bodyRead := false } :=
  c6_content_type_guard "id1" (mkReq "POST" "text/plain" (BodyDecode.ok "x"))
    [] (by decide)

/-- C7: with correct Content-Type, an empty body (decoder returns EOF) is
rejected with 400 and the empty-body message, any other decode failure with
400 and the distinct generic message, and in both cases the store is
unchanged. -/
theorem c7_decode_errors (freshId m e : String) (store : List URL) :
    addURL freshId (mkReq m "application/json" BodyDecode.eof) store
      = { status := 400, body := AddBody.text "Empty request body\n",
          store := store, bodyRead := true } ∧
    addURL freshId (mkReq m "application/json" (BodyDecode.malformed e)) store
      = { status := 400, body := AddBody.text "Invalid request payload\n",
          store := store, bodyRead := true } ∧
    ("Empty request body" : String) ≠ "Invalid request payload" := by
  refine ⟨?_, ?_, by decide⟩ <;> simp [addURL, mkReq]

/-- C8: /clr rejects every method other than GET with 405 and leaves the
store unchanged; a GET deletes every row (the store afterwards is empty)
and responds 200 with the plain-text confirmation. -/
theorem c8_clear_urls (method : String) (store : List URL) :
    (method ≠ "GET" →
      clearURLs method store
        = { status := 405, body := "Invalid method. Only GET is allowed\n",
            store := store }) ∧
    clearURLs "GET" store
      = { status := 200,
          body := "All URLs have been removed from the database.\n",
          store := [] } := by
  refine ⟨fun h => ?_, by simp [clearURLs]⟩
  unfold clearURLs
  rw [if_pos h]

/-- C8 witness: the clear theorem evaluated at method POST and a one-row
store, then at GET on the same store. -/
theorem c8_clear_urls_witness :
    clearURLs "POST" [{ id := "a", url := "u" }]
      = { status := 405, body := "Invalid method. Only GET is allowed\n",
          store := [{ id := "a", url := "u" }] } ∧
    clearURLs "GET" [{ id := "a", url := "u" }]
      = { status := 200,
          body := "All URLs have been removed from the database.\n",
          store := [] } :=
  ⟨(c8_clear_urls "POST" [{ id := "a", url := "u" }]).1 (by decide),
   (c8_clear_urls "POST" [{ id := "a", url := "u" }]).2⟩

/-- C9: when the decoded remote response carries a non-zero code field,
getVideoInfo fails with the remote msg surfaced verbatim after the prefix
"API error: " and returns no VideoInfo, and GET /get on a non-empty store
responds 500 carrying that message. -/
theorem c9_remote_api_error (info : VideoInfo) (store : List URL) (draw : Nat)
    (h : info.code ≠ 0) (hs : draw < store.length) :
    getVideoInfo (FetchOutcome.decoded info)
      = Except.error ("API error: " ++ info.msg) ∧
    getVideoData store draw (fun _ => getVideoInfo (FetchOutcome.decoded info))
      = { status := 500,
          body := GetBody.text
            ("Error fetching video: " ++ ("API error: " ++ info.msg) ++ "\n"),
          fetchCalled := true } := by
  have h1 : getVideoInfo (FetchOutcome.decoded info)
      = Except.error ("API error: " ++ info.msg) := by
    simp [getVideoInfo, h]
  refine ⟨h1, ?_⟩
  unfold getVideoData
  rw [getRandomURL_pos store draw hs, h1]

/-- C9 witness: the remote-error theorem evaluated on a decoded response
with code 1 and a one-row store. -/
theorem c9_remote_api_error_witness :
    getVideoInfo (FetchOutcome.decoded errInfo)
      = Except.error ("API error: " ++ errInfo.msg) ∧
    getVideoData [{ id := "a", url := "u" }] 0
        (fun _ => getVideoInfo (FetchOutcome.decoded errInfo))
      = { status := 500,
          body := GetBody.text
            ("Error fetching video: " ++ ("API error: " ++ errInfo.msg) ++ "\n"),
          fetchCalled := true } :=
  c9_remote_api_error errInfo [{ id := "a", url := "u" }] 0 (by decide) (by decide)

/-- C10: the /new handler never inspects the request method: for every
method it inserts the decoded record and responds 201 with it, and its
outcome is identical to the outcome on a POST request. -/
theorem c10_no_method_restriction (method freshId u : String)
    (store : List URL) :
    addURL freshId (mkReq method "application/json" (BodyDecode.ok u)) store
      = { status := 201, body := AddBody.record { id := freshId, url := u },
          store := store ++ [{ id := freshId, url := u }], bodyRead := true } ∧
    addURL freshId (mkReq method "application/json" (BodyDecode.ok u)) store
      = addURL freshId (mkReq "POST" "application/json" (BodyDecode.ok u)) store := by
  constructor <;> simp [addURL, mkReq]
